import Mathlib

/-!
Shallow embedding of the extraction/download orchestration core of
`backend/app/services/video.py` (class `VideoService`), together with
theorems about the behaviour specified for it.

Modelling conventions:
* Filesystem paths are lists of components (an absolute path `/a/b` is
  `["a", "b"]`); `pathlib` never resolves `..` components, so component
  lists with literal components model `Path` values faithfully.
* External effects (uuid generation, `mkdir`, `rmtree`, `os.remove`, and
  each call into the yt-dlp capability) are recorded as an explicit
  ordered trace of `Effect`s.
* The yt-dlp capability is an oracle parameter: for extraction, a
  function from the strategy index to that strategy's outcome; for
  download, a function from the call index and the format selector to
  the attempt's outcome.
* Python string truthiness (`not s`, `a or b`) is modelled explicitly
  (`pyOrStr`, emptiness tests); `dict.get` with a default is modelled by
  `Option.getD`.
-/

/-- Python-style substring test on character lists: `hasSubList pat l`
is `pat in l`. -/
def hasSubList (pat : List Char) : List Char → Bool
  | [] => pat.isEmpty
  | c :: t => pat.isPrefixOf (c :: t) || hasSubList pat t

/-- `strContains s pat` models Python `pat in s`. -/
def strContains (s pat : String) : Bool :=
  hasSubList pat.data s.data

/-- Models Python `str.lower()` (ASCII case folding, as in all strings
this service compares). -/
def strToLower (s : String) : String :=
  String.mk (s.data.map Char.toLower)

/-- Models Python `str.upper()` (ASCII case folding). -/
def strToUpper (s : String) : String :=
  String.mk (s.data.map Char.toUpper)

/-- Python `a or b` for an optional string `a` (None and `""` are falsy). -/
def pyOrStr (a : Option String) (b : String) : String :=
  match a with
  | some s => if s == "" then b else s
  | none => b

/-- Python truthiness of an optional numeric field (`None` and `0` are falsy). -/
def natTruthy : Option Nat → Bool
  | some n => n != 0
  | none => false

/-- The domain substrings of `validate_facebook_url` (video.py lines 21-26). -/
def facebook_patterns : List String :=
  ["facebook.com", "fb.com", "fb.watch", "m.facebook.com"]

/-- `VideoService.validate_facebook_url` (video.py lines 17-27). -/
def validate_facebook_url (url : String) : Bool :=
  facebook_patterns.any (fun pattern => strContains (strToLower url) pattern)

/-- A raw yt-dlp format descriptor: exactly the keys `extract_video_info`
reads, each optional because it is read with `dict.get`. -/
structure RawFormat where
  protocol : Option String := none
  format_note : Option String := none
  ext : Option String := none
  vcodec : Option String := none
  height : Option Nat := none
  width : Option Nat := none
  resolution : Option String := none
  format_id : Option String := none
  filesize : Option Nat := none
deriving DecidableEq, Repr

/-- `app.schemas.video.VideoFormat` as populated by `extract_video_info`. -/
structure VideoFormat where
  format_id : String
  resolution : String
  ext : String
  filesize : Option Nat
  format_note : String
deriving DecidableEq, Repr

/-- video.py line 101: the protocol marks a segmented/streaming-only delivery. -/
def protocolSegmented (fmt : RawFormat) : Bool :=
  ["m3u8", "dash", "http_dash_segments"].any
    (fun x => strContains (fmt.protocol.getD "") x)

/-- video.py line 103: the (lowered) format note marks a segmented delivery. -/
def noteSegmented (fmt : RawFormat) : Bool :=
  ["dash", "hls", "fragment"].any
    (fun x => strContains (strToLower (fmt.format_note.getD "")) x)

/-- A raw descriptor for a streaming-segmented delivery (dropped at
video.py lines 101-104). -/
def isStreamingSegmented (fmt : RawFormat) : Bool :=
  protocolSegmented fmt || noteSegmented fmt

/-- video.py lines 107-108: no video stream (`vcodec` absent, "none" or empty). -/
def isAudioOnly (fmt : RawFormat) : Bool :=
  let vcodec := fmt.vcodec.getD "none"
  vcodec == "none" || vcodec == ""

/-- video.py lines 112-117: resolution is `"{width}x{height}"` when both are
truthy, else the raw resolution string, else the raw format note, else
"unknown". -/
def computeResolution (fmt : RawFormat) : String :=
  if natTruthy fmt.height && natTruthy fmt.width then
    toString (fmt.width.getD 0) ++ "x" ++ toString (fmt.height.getD 0)
  else
    pyOrStr fmt.resolution (pyOrStr fmt.format_note "unknown")

/-- The per-descriptor filter body of `extract_video_info`
(video.py lines 94-136): `none` when the descriptor is skipped by a
`continue`, otherwise the `VideoFormat` entry appended. -/
def keepFormat (fmt : RawFormat) : Option VideoFormat :=
  let ext := fmt.ext.getD "mp4"
  if protocolSegmented fmt then none
  else if noteSegmented fmt then none
  else if isAudioOnly fmt then none
  else
    let resolution := computeResolution fmt
    if resolution == "audio only" then none
    else if !(["mp4", "mov", "avi", "mkv"].contains ext) then none
    else some
      { format_id := fmt.format_id.getD "best"
        resolution := resolution
        ext := ext
        filesize := fmt.filesize
        format_note :=
          if natTruthy fmt.height then resolution ++ " - " ++ strToUpper ext
          else "Standard quality - " ++ strToUpper ext }

/-- The filtering loop of video.py lines 94-136 over a whole raw list. -/
def filterFormats (raw : List RawFormat) : List VideoFormat :=
  raw.filterMap keepFormat

/-- The deduplication loop of video.py lines 138-145: `seen` is the set of
resolutions already kept, first occurrence wins, order preserved. -/
def dedupRes (seen : List String) : List VideoFormat → List VideoFormat
  | [] => []
  | f :: rest =>
    if seen.contains f.resolution then dedupRes seen rest
    else f :: dedupRes (f.resolution :: seen) rest

/-- The synthetic fallback entry of video.py lines 149-155. -/
def fallbackFormat : VideoFormat :=
  { format_id := "best"
    resolution := "best"
    ext := "mp4"
    filesize := none
    format_note := "Best available quality - MP4 (recommended)" }

/-- The Format Normalizer: video.py lines 92-155 as a function of the raw
format list (the `if 'formats' in info and info['formats']` guard makes the
whole filter/dedup block run only on a non-empty raw list). -/
def normalizeFormats (raw : List RawFormat) : List VideoFormat :=
  let formats := if raw.isEmpty then [] else dedupRes [] (filterFormats raw)
  if formats.isEmpty then [fallbackFormat] else formats

/-- One request-fingerprint configuration from the strategy catalog
(video.py lines 40-82); only the fields that distinguish the three
strategies are modelled. -/
structure StrategyConfig where
  userAgent : String
  skipDash : Bool
deriving DecidableEq, Repr

/-- The ordered strategy catalog of video.py lines 40-82. -/
def strategies : List StrategyConfig :=
  [ { userAgent := "Mozilla/5.0 (Windows NT 10.0; Win64; x64) AppleWebKit/537.36 (KHTML, like Gecko) Chrome/120.0.0.0 Safari/537.36"
      skipDash := false }
  , { userAgent := "Mozilla/5.0 (Macintosh; Intel Mac OS X 10_15_7) AppleWebKit/537.36 (KHTML, like Gecko) Chrome/120.0.0.0 Safari/537.36"
      skipDash := true }
  , { userAgent := "Mozilla/5.0 (iPhone; CPU iPhone OS 16_0 like Mac OS X) AppleWebKit/605.1.15 (KHTML, like Gecko) Version/16.0 Mobile/15E148 Safari/604.1"
      skipDash := false } ]

/-- The indices the strategy loop enumerates (`enumerate(strategies)`). -/
def strategyIndices : List Nat := List.range strategies.length

/-- The raw metadata document returned by a successful yt-dlp probe:
exactly the keys `extract_video_info` reads. -/
structure RawInfo where
  formats : List RawFormat := []
  thumbnail : Option String := none
  title : Option String := none
  duration : Option Int := none
deriving DecidableEq, Repr

/-- Outcome of one strategy's `ydl.extract_info` call: the raw document, or
the exception's string. -/
inductive StratOutcome where
  | ok (info : RawInfo)
  | err (msg : String)
deriving DecidableEq, Repr

/-- The observable effects of the service, in program order. -/
inductive Effect where
  | genId
  | mkdirAction (path : List String)
  | probe (idx : Nat)
  | rmtreeAction (path : List String)
  | removeFileAction (path : List String)
deriving DecidableEq, Repr

/-- `extract_video_info`'s successful result dictionary (video.py lines 163-169). -/
structure VideoInfoOut where
  download_id : String
  thumbnail_url : Option String
  title : String
  duration : Option Int
  formats : List VideoFormat
deriving DecidableEq, Repr

/-- Result of `extract_video_info`: the info dictionary, or the message of
the `ValueError` raised. -/
inductive ExtractResult where
  | ok (info : VideoInfoOut)
  | err (msg : String)
deriving DecidableEq, Repr

structure ExtractOutput where
  actions : List Effect
  result : ExtractResult
deriving DecidableEq, Repr

/-- video.py line 33. -/
def invalidUrlMsg : String := "Not a valid Facebook URL"

/-- The guidance message of video.py lines 185-192. -/
def guidanceMsg : String :=
  "Unable to download this Facebook video. Facebook has updated their security measures. Please try one of these solutions:\n1. For Reels: Open the link in your browser, copy the full URL (facebook.com/reel/123456789)\n2. For regular videos: Try using the direct video URL instead of share links\n3. Some videos may be restricted and cannot be downloaded\nNote: Facebook actively blocks automated downloads and this may not work for all videos."

/-- The access-restricted message of video.py line 194. -/
def privateMsg : String :=
  "This video appears to be private or requires login. Only public videos can be downloaded."

/-- The error classification of video.py lines 183-196, applied to
`str(last_error)`. -/
def classifyError (e : String) : String :=
  if strContains e "Cannot parse data" || strContains (strToLower e) "unable to extract" then
    guidanceMsg
  else if strContains e "Private video" || strContains (strToLower e) "login" then
    privateMsg
  else
    "Could not process video: " ++ e

/-- The strategy loop of video.py lines 84-173: walks the strategy indices
in order, recording each `ydl.extract_info` call; the first success
short-circuits; otherwise the last error is aggregated. Returns
(probed indices, first success if any, last error if any). -/
def loopStrategies (oracle : Nat → StratOutcome) :
    List Nat → Option String → List Nat × Option RawInfo × Option String
  | [], lastErr => ([], none, lastErr)
  | idx :: rest, lastErr =>
    match oracle idx with
    | StratOutcome.ok info => ([idx], some info, lastErr)
    | StratOutcome.err e =>
      let r := loopStrategies oracle rest (some e)
      (idx :: r.1, r.2)

/-- `VideoService.extract_video_info` (video.py lines 29-196).
`root` is `settings.DOWNLOAD_DIR`, `downloadId` the fresh uuid the
generator would produce, `oracle` the yt-dlp capability per strategy
index. At the rmtree site (line 179) the `download_path.exists()` check
always holds in this model because the directory was created at line 37
earlier in the same call, so the removal is recorded unconditionally. -/
def extract_video_info (root : List String) (downloadId : String)
    (oracle : Nat → StratOutcome) (url : String) : ExtractOutput :=
  if validate_facebook_url url then
    let downloadPath := root ++ [downloadId]
    match loopStrategies oracle strategyIndices none with
    | (tried, some info, _) =>
      { actions := [Effect.genId, Effect.mkdirAction downloadPath] ++ tried.map Effect.probe
        result := ExtractResult.ok
          { download_id := downloadId
            thumbnail_url := info.thumbnail
            title := info.title.getD "Facebook Video"
            duration := info.duration
            formats := normalizeFormats info.formats } }
    | (tried, none, lastErr) =>
      { actions := [Effect.genId, Effect.mkdirAction downloadPath] ++ tried.map Effect.probe
            ++ [Effect.rmtreeAction downloadPath]
        result := ExtractResult.err (classifyError (lastErr.getD "None")) }
  else
    { actions := [], result := ExtractResult.err invalidUrlMsg }

/-- Outcome of one `ydl.extract_info(url, download=True)` call:
the prepared filename, a `yt_dlp.utils.DownloadError`, or any other
exception. -/
inductive DlOutcome where
  | ok (filename : String)
  | downloadError (msg : String)
  | otherError (msg : String)
deriving DecidableEq, Repr

inductive DownloadResult where
  | ok (path : String)
  | err (msg : String)
deriving DecidableEq, Repr

structure DownloadOutput where
  actions : List Effect
  calls : List String
  result : DownloadResult
deriving DecidableEq, Repr

/-- The selector construction of video.py lines 205-211. -/
def build_format_selector (format_id : String) : String :=
  if format_id == "best" || format_id == "" then "best"
  else format_id ++ "/best"

/-- `str(retry_error)` for the retry's exception. -/
def dlOutcomeMsg : DlOutcome → String
  | DlOutcome.ok f => f
  | DlOutcome.downloadError m => m
  | DlOutcome.otherError m => m

/-- `VideoService.download_video` (video.py lines 198-249). `dirExists`
models `download_path.exists()`; `oracle n sel` is the outcome of the
(n+1)-th yt-dlp invocation with format selector `sel`; `calls` records the
selector of each invocation in order. -/
def download_video (root : List String) (dirExists : Bool)
    (downloadId format_id : String) (oracle : Nat → String → DlOutcome) :
    DownloadOutput :=
  let downloadPath := root ++ [downloadId]
  let mk : List Effect := if dirExists then [] else [Effect.mkdirAction downloadPath]
  let sel := build_format_selector format_id
  match oracle 0 sel with
  | DlOutcome.ok filename =>
    { actions := mk, calls := [sel], result := DownloadResult.ok filename }
  | DlOutcome.downloadError msg =>
    if strContains msg "Requested format is not available" then
      match oracle 1 "best" with
      | DlOutcome.ok filename =>
        { actions := mk, calls := [sel, "best"], result := DownloadResult.ok filename }
      | DlOutcome.downloadError m2 =>
        { actions := mk, calls := [sel, "best"]
          result := DownloadResult.err
            ("Could not download video in any available format: " ++ m2) }
      | DlOutcome.otherError m2 =>
        { actions := mk, calls := [sel, "best"]
          result := DownloadResult.err
            ("Could not download video in any available format: " ++ m2) }
    else
      { actions := mk, calls := [sel]
        result := DownloadResult.err ("Download failed: " ++ msg) }
  | DlOutcome.otherError msg =>
    { actions := mk, calls := [sel]
      result := DownloadResult.err ("Unexpected error during download: " ++ msg) }

/-- `root in p.parents` for pathlib paths: `pathlib` compares component
tuples without resolving anything, so membership in the parent chain is
exactly "the root's components are a strict prefix of `p`'s components". -/
def pathlib_in_parents (root p : List String) : Bool :=
  root.isPrefixOf p && root != p

/-- Resolution of `..` components, processing components left to right with
a stack: what the filesystem itself does with a `..`-bearing absolute path
when an operation such as `shutil.rmtree` or `os.remove` acts on it (absent
symlinks); `..` at the root stays at the root. `pathlib` performs no such
resolution, so the guard of video.py line 260 operates on unresolved
components while the deletions operate on resolved ones. -/
def resolveComps (acc : List String) : List String → List String
  | [] => acc.reverse
  | c :: rest =>
    if c == ".." then resolveComps acc.tail rest
    else resolveComps (c :: acc) rest

def resolvePath (p : List String) : List String :=
  resolveComps [] p

/-- "p is a descendant of the root" in the real-filesystem sense the spec's
safety property quantifies over: after resolving `..` components, the
root's resolved components are a strict prefix of p's resolved
components. -/
def isDescendantOf (root p : List String) : Bool :=
  (resolvePath root).isPrefixOf (resolvePath p) && resolvePath root != resolvePath p

/-- `VideoService.cleanup_download` (video.py lines 251-263).
`fileExists` models `file_path.exists()` at line 255 and `dirExists`
models `parent_dir.exists()` at line 260; the returned trace lists the
deletion effects issued. -/
def cleanup_download (root : List String) (file_path : List String)
    (fileExists dirExists : Bool) : List Effect :=
  (if fileExists then [Effect.removeFileAction file_path] else []) ++
  (let parent_dir := file_path.dropLast
   if dirExists && pathlib_in_parents root parent_dir then
     [Effect.rmtreeAction parent_dir]
   else [])

/-- Abstract replay of a trace against a set of existing directories:
`mkdir` (with `exist_ok`) inserts, `rmtree` removes the directory and all
its descendants; the other actions do not touch directories. -/
def applyActions : List (List String) → List Effect → List (List String)
  | dirs, [] => dirs
  | dirs, Effect.mkdirAction p :: rest =>
    applyActions (if dirs.contains p then dirs else p :: dirs) rest
  | dirs, Effect.rmtreeAction p :: rest =>
    applyActions (dirs.filter fun q => !(p.isPrefixOf q)) rest
  | dirs, Effect.genId :: rest => applyActions dirs rest
  | dirs, Effect.probe _ :: rest => applyActions dirs rest
  | dirs, Effect.removeFileAction _ :: rest => applyActions dirs rest

/-- The probe (extraction-capability call) indices of a trace, in order. -/
def probeActions (acts : List Effect) : List Nat :=
  acts.filterMap fun a =>
    match a with
    | Effect.probe i => some i
    | _ => none

theorem strategyIndices_eq : strategyIndices = [0, 1, 2] := rfl

/-! ### Helper lemmas about deduplication -/

theorem dedupRes_sublist (seen : List String) (l : List VideoFormat) :
    List.Sublist (dedupRes seen l) l := by
  induction l generalizing seen with
  | nil => simp [dedupRes]
  | cons f rest ih =>
    by_cases h : seen.contains f.resolution = true
    · rw [dedupRes, if_pos h]
      exact List.Sublist.cons f (ih seen)
    · rw [dedupRes, if_neg h]
      exact List.Sublist.cons₂ f (ih (f.resolution :: seen))

theorem dedupRes_mem_find (seen : List String) (l : List VideoFormat) (g : VideoFormat)
    (hg : g ∈ dedupRes seen l) :
    seen.contains g.resolution = false ∧
      l.find? (fun f => f.resolution == g.resolution) = some g := by
  induction l generalizing seen with
  | nil => simp [dedupRes] at hg
  | cons f rest ih =>
    by_cases h : seen.contains f.resolution = true
    · rw [dedupRes, if_pos h] at hg
      obtain ⟨h1, h2⟩ := ih seen hg
      have hne : (f.resolution == g.resolution) = false := by
        rcases hres : f.resolution == g.resolution with _ | _
        · rfl
        · rw [eq_of_beq hres] at h
          rw [h] at h1
          cases h1
      refine ⟨h1, ?_⟩
      rw [List.find?_cons, hne]
      exact h2
    · rw [dedupRes, if_neg h] at hg
      have hfalse : seen.contains f.resolution = false := by
        cases hc : seen.contains f.resolution
        · rfl
        · exact absurd hc h
      rcases List.mem_cons.mp hg with hgf | hgrest
      · subst hgf
        refine ⟨hfalse, ?_⟩
        rw [List.find?_cons, beq_self_eq_true]
      · obtain ⟨h1, h2⟩ := ih (f.resolution :: seen) hgrest
        rw [List.contains_cons] at h1
        have hne : (f.resolution == g.resolution) = false := by
          rcases hres : f.resolution == g.resolution with _ | _
          · rfl
          · rw [eq_of_beq hres] at h1
            simp at h1
        refine ⟨(Bool.or_eq_false_iff.mp h1).2, ?_⟩
        rw [List.find?_cons, hne]
        exact h2

theorem dedupRes_resolutions_nodup (seen : List String) (l : List VideoFormat) :
    ((dedupRes seen l).map VideoFormat.resolution).Nodup := by
  induction l generalizing seen with
  | nil => simp [dedupRes]
  | cons f rest ih =>
    by_cases h : seen.contains f.resolution = true
    · rw [dedupRes, if_pos h]
      exact ih seen
    · rw [dedupRes, if_neg h, List.map_cons]
      refine List.nodup_cons.mpr ⟨?_, ih (f.resolution :: seen)⟩
      intro hmem
      obtain ⟨g, hg, hres⟩ := List.mem_map.mp hmem
      have h1 := (dedupRes_mem_find _ _ _ hg).1
      rw [List.contains_cons, hres] at h1
      simp at h1

/-! ### C2, C7, C8 — the Format Normalizer -/

/-- C2: for every raw format list, the Format Normalizer output is never
empty and never contains two entries with the same resolution value. -/
theorem normalizer_nonempty_and_nodup (raw : List RawFormat) :
    normalizeFormats raw ≠ [] ∧
      ((normalizeFormats raw).map VideoFormat.resolution).Nodup := by
  unfold normalizeFormats
  by_cases hr : raw.isEmpty = true
  · rw [if_pos hr]
    simp
  · rw [if_neg hr]
    by_cases hd : (dedupRes [] (filterFormats raw)).isEmpty = true
    · rw [if_pos hd]
      simp
    · rw [if_neg hd]
      refine ⟨?_, dedupRes_resolutions_nodup [] (filterFormats raw)⟩
      intro hnil
      rw [hnil] at hd
      exact hd rfl

theorem keepFormat_none_of_bad (f : RawFormat)
    (h : isStreamingSegmented f = true ∨ isAudioOnly f = true) :
    keepFormat f = none := by
  rcases h with h | h
  · rcases Bool.or_eq_true_iff.mp h with h1 | h1
    · simp [keepFormat, h1]
    · simp [keepFormat, h1]
  · simp [keepFormat, h]

theorem filterFormats_eq_nil (raw : List RawFormat)
    (h : ∀ f ∈ raw, isStreamingSegmented f = true ∨ isAudioOnly f = true) :
    filterFormats raw = [] := by
  induction raw with
  | nil => rfl
  | cons f rest ih =>
    rw [filterFormats, List.filterMap_cons, keepFormat_none_of_bad f (h f (by simp))]
    exact ih (fun g hg => h g (by simp [hg]))

/-- C7: a raw list with only streaming-segmented or audio-only entries
normalizes to exactly the single synthetic fallback entry, whose fields are
identifier "best", resolution "best", container "mp4", no file size, and the
fixed best-available-quality note. -/
theorem normalizer_fallback_on_incompatible (raw : List RawFormat)
    (h : ∀ f ∈ raw, isStreamingSegmented f = true ∨ isAudioOnly f = true) :
    normalizeFormats raw = [fallbackFormat] ∧
      fallbackFormat.format_id = "best" ∧
      fallbackFormat.resolution = "best" ∧
      fallbackFormat.ext = "mp4" ∧
      fallbackFormat.filesize = none ∧
      fallbackFormat.format_note = "Best available quality - MP4 (recommended)" := by
  refine ⟨?_, rfl, rfl, rfl, rfl, rfl⟩
  have hf := filterFormats_eq_nil raw h
  by_cases hr : raw.isEmpty = true
  · rw [normalizeFormats, if_pos hr]
    rfl
  · rw [normalizeFormats, if_neg hr, hf]
    rfl

set_option maxRecDepth 10000 in
/-- Witness for C7 at a concrete raw list (one HLS entry, one audio-only
entry). -/
theorem normalizer_fallback_on_incompatible_witness :
    normalizeFormats
      [ { protocol := some "m3u8_native", ext := some "mp4", vcodec := some "h264", height := some 720, width := some 1280 }
      , { vcodec := some "none", ext := some "m4a" } ] = [fallbackFormat] :=
  (normalizer_fallback_on_incompatible _ (by decide)).1

/-- C8: deduplication keeps exactly the first descriptor for each distinct
resolution value, preserving original order (the output is an order-preserving
sublist of its input, and each kept entry is the first input entry with its
resolution); on the spec's scenario list the normalized output is exactly one
entry with resolution "1280x720" and container "mp4". -/
theorem dedup_first_seen_and_scenario :
    (∀ l : List VideoFormat, List.Sublist (dedupRes [] l) l) ∧
    (∀ (l : List VideoFormat) (g : VideoFormat), g ∈ dedupRes [] l →
        l.find? (fun f => f.resolution == g.resolution) = some g) ∧
    normalizeFormats
      [ { height := some 720, width := some 1280, ext := some "mp4", vcodec := some "h264", protocol := some "https" }
      , { height := some 720, width := some 1280, ext := some "mp4", vcodec := some "h264", protocol := some "m3u8" }
      , { vcodec := some "none", ext := some "m4a" } ] =
    [ { format_id := "best", resolution := "1280x720", ext := "mp4", filesize := none
        format_note := "1280x720 - MP4" } ] := by
  refine ⟨fun l => dedupRes_sublist [] l,
    fun l g hg => (dedupRes_mem_find [] l g hg).2, ?_⟩
  set_option maxRecDepth 10000 in decide

/-- Witness for C8's first-seen clause at a concrete duplicate-resolution
list. -/
theorem dedup_first_seen_and_scenario_witness :
    List.find?
        (fun f : VideoFormat => f.resolution == VideoFormat.resolution ⟨"1", "720p", "mp4", none, "a"⟩)
        ([⟨"1", "720p", "mp4", none, "a"⟩, ⟨"2", "720p", "mp4", none, "b"⟩] : List VideoFormat)
      = some ⟨"1", "720p", "mp4", none, "a"⟩ :=
  dedup_first_seen_and_scenario.2.1
    ([⟨"1", "720p", "mp4", none, "a"⟩, ⟨"2", "720p", "mp4", none, "b"⟩] : List VideoFormat)
    ⟨"1", "720p", "mp4", none, "a"⟩ (by decide)

/-! ### C6, C10 — URL classification and invalid-URL short-circuit -/

/-- C6: the classifier accepts exactly the URLs whose lowercased text
contains one of the fixed domain substrings; every rejected URL makes
extraction fail with the invalid-URL error having performed no effect at
all — in particular zero extraction-capability calls. -/
theorem url_classifier_scope (url : String) (root : List String) (downloadId : String)
    (oracle : Nat → StratOutcome) :
    (validate_facebook_url url = true ↔
      ∃ p ∈ facebook_patterns, strContains (strToLower url) p = true) ∧
    (validate_facebook_url url = false →
      (extract_video_info root downloadId oracle url).actions = [] ∧
      probeActions (extract_video_info root downloadId oracle url).actions = [] ∧
      (extract_video_info root downloadId oracle url).result
        = ExtractResult.err invalidUrlMsg) := by
  constructor
  · simp [validate_facebook_url, List.any_eq_true]
  · intro h
    rw [extract_video_info, if_neg (by simp [h])]
    exact ⟨rfl, rfl, rfl⟩

/-- Witness for C6's rejection clause at a concrete out-of-scope URL. -/
theorem url_classifier_scope_witness :
    (extract_video_info ["downloads"] "abc" (fun _ => StratOutcome.err "e")
        "https://example.com/watch").actions = [] ∧
    probeActions (extract_video_info ["downloads"] "abc" (fun _ => StratOutcome.err "e")
        "https://example.com/watch").actions = [] ∧
    (extract_video_info ["downloads"] "abc" (fun _ => StratOutcome.err "e")
        "https://example.com/watch").result = ExtractResult.err invalidUrlMsg :=
  (url_classifier_scope "https://example.com/watch" ["downloads"] "abc"
    (fun _ => StratOutcome.err "e")).2 (by set_option maxRecDepth 10000 in decide)

/-- C10: a URL the classifier rejects makes extraction fail atomically:
the result is the invalid-URL error and the effect trace is empty, so no
session identifier was generated and no scratch directory was created. -/
theorem extract_invalid_url_atomic (url : String) (root : List String)
    (downloadId : String) (oracle : Nat → StratOutcome)
    (h : validate_facebook_url url = false) :
    (extract_video_info root downloadId oracle url).actions = [] ∧
    (extract_video_info root downloadId oracle url).result
      = ExtractResult.err invalidUrlMsg ∧
    Effect.genId ∉ (extract_video_info root downloadId oracle url).actions ∧
    (∀ p, Effect.mkdirAction p ∉ (extract_video_info root downloadId oracle url).actions) := by
  rw [extract_video_info, if_neg (by simp [h])]
  exact ⟨rfl, rfl, by simp, by simp⟩

/-- Witness for C10 at a concrete out-of-scope URL. -/
theorem extract_invalid_url_atomic_witness :
    (extract_video_info ["downloads"] "abc" (fun _ => StratOutcome.err "e")
        "ftp://vimeo.example/v/9").actions = [] ∧
    (extract_video_info ["downloads"] "abc" (fun _ => StratOutcome.err "e")
        "ftp://vimeo.example/v/9").result = ExtractResult.err invalidUrlMsg :=
  have h := extract_invalid_url_atomic "ftp://vimeo.example/v/9" ["downloads"] "abc"
    (fun _ => StratOutcome.err "e") (by set_option maxRecDepth 10000 in decide)
  ⟨h.1, h.2.1⟩

/-! ### C4, C5 — strategy iteration and total-failure handling -/

set_option maxRecDepth 10000 in
/-- C4: with the URL in scope and exactly the k-th strategy (1-indexed,
k ≤ 3) the first to succeed, the orchestrator issues exactly the probe
calls for strategies 1..k in catalog order — k calls, no more, no fewer. -/
theorem extract_strategy_call_count (root : List String) (downloadId url : String)
    (oracle : Nat → StratOutcome) (k : Nat)
    (hval : validate_facebook_url url = true) (hk1 : 1 ≤ k) (hk3 : k ≤ 3)
    (hfail : ∀ i, i + 1 < k → ∃ e, oracle i = StratOutcome.err e)
    (hsucc : ∃ info, oracle (k - 1) = StratOutcome.ok info) :
    probeActions (extract_video_info root downloadId oracle url).actions = List.range k ∧
    (probeActions (extract_video_info root downloadId oracle url).actions).length = k := by
  interval_cases k
  · obtain ⟨info, h0⟩ := hsucc
    rw [extract_video_info, if_pos hval, strategyIndices_eq]
    simp [loopStrategies, h0, probeActions, List.range_succ]
  · obtain ⟨e0, h0⟩ := hfail 0 (by omega)
    obtain ⟨info, h1⟩ := hsucc
    rw [extract_video_info, if_pos hval, strategyIndices_eq]
    simp [loopStrategies, h0, h1, probeActions, List.range_succ]
  · obtain ⟨e0, h0⟩ := hfail 0 (by omega)
    obtain ⟨e1, h1⟩ := hfail 1 (by omega)
    obtain ⟨info, h2⟩ := hsucc
    rw [extract_video_info, if_pos hval, strategyIndices_eq]
    simp [loopStrategies, h0, h1, h2, probeActions, List.range_succ]

/-- Witness for C4 with k = 2: strategy 1 fails, strategy 2 succeeds. -/
theorem extract_strategy_call_count_witness :
    probeActions (extract_video_info ["downloads"] "abc"
        (fun i => if i = 0 then StratOutcome.err "boom" else StratOutcome.ok {})
        "https://fb.watch/xyz").actions = List.range 2 :=
  (extract_strategy_call_count ["downloads"] "abc" "https://fb.watch/xyz"
    (fun i => if i = 0 then StratOutcome.err "boom" else StratOutcome.ok {}) 2
    (by set_option maxRecDepth 10000 in decide) (by omega) (by omega)
    (fun i hi => ⟨"boom", by
      have h0 : i = 0 := by omega
      subst h0
      rfl⟩)
    ⟨{}, rfl⟩).1

/-! Helper lemmas for replaying the effect trace. -/

theorem isPrefixOf_self {α : Type} [BEq α] [LawfulBEq α] (l : List α) :
    l.isPrefixOf l = true := by
  induction l with
  | nil => rfl
  | cons a t ih => simp [List.isPrefixOf, ih]

theorem applyActions_append (dirs : List (List String)) (l1 l2 : List Effect) :
    applyActions dirs (l1 ++ l2) = applyActions (applyActions dirs l1) l2 := by
  induction l1 generalizing dirs with
  | nil => rfl
  | cons a rest ih => cases a <;> simp [applyActions, ih]

theorem not_mem_applyActions_rmtree_last (dirs : List (List String))
    (l : List Effect) (p : List String) :
    p ∉ applyActions dirs (l ++ [Effect.rmtreeAction p]) := by
  rw [applyActions_append]
  intro hmem
  have h : p ∈ applyActions dirs l ∧ p.isPrefixOf p = false := by
    simpa [applyActions, List.mem_filter] using hmem
  have h2 := h.2
  rw [isPrefixOf_self] at h2
  simp at h2

set_option maxRecDepth 10000 in
/-- C5: when every strategy fails, the session's scratch directory does not
exist after the call (whatever directories existed before), and the raised
error is the classification of the last underlying error string:
parsing/extraction-blocked errors give the guidance message, private/login
errors give the access-restricted message, anything else the generic message
carrying the raw error text. -/
theorem extract_all_fail_cleanup_and_classify (root : List String)
    (downloadId url : String) (oracle : Nat → StratOutcome) (es : Nat → String)
    (hval : validate_facebook_url url = true)
    (hfail : ∀ i, i < 3 → oracle i = StratOutcome.err (es i)) :
    (∀ dirs : List (List String),
        root ++ [downloadId]
          ∉ applyActions dirs (extract_video_info root downloadId oracle url).actions) ∧
    (extract_video_info root downloadId oracle url).result
        = ExtractResult.err (classifyError (es 2)) ∧
    (∀ e, (strContains e "Cannot parse data" || strContains (strToLower e) "unable to extract") = true →
        classifyError e = guidanceMsg) ∧
    (∀ e, (strContains e "Cannot parse data" || strContains (strToLower e) "unable to extract") = false →
        (strContains e "Private video" || strContains (strToLower e) "login") = true →
        classifyError e = privateMsg) ∧
    (∀ e, (strContains e "Cannot parse data" || strContains (strToLower e) "unable to extract") = false →
        (strContains e "Private video" || strContains (strToLower e) "login") = false →
        classifyError e = "Could not process video: " ++ e) := by
  have h0 := hfail 0 (by omega)
  have h1 := hfail 1 (by omega)
  have h2 := hfail 2 (by omega)
  have hext : extract_video_info root downloadId oracle url =
      { actions := [Effect.genId, Effect.mkdirAction (root ++ [downloadId]),
          Effect.probe 0, Effect.probe 1, Effect.probe 2]
            ++ [Effect.rmtreeAction (root ++ [downloadId])]
        result := ExtractResult.err (classifyError (es 2)) } := by
    rw [extract_video_info, if_pos hval, strategyIndices_eq]
    simp [loopStrategies, h0, h1, h2]
  refine ⟨?_, ?_, ?_, ?_, ?_⟩
  · intro dirs
    rw [hext]
    exact not_mem_applyActions_rmtree_last dirs _ _
  · rw [hext]
  · intro e he
    rw [classifyError, if_pos he]
  · intro e he hp
    rw [classifyError, if_neg (by simp [he]), if_pos hp]
  · intro e he hp
    rw [classifyError, if_neg (by simp [he]), if_neg (by simp [hp])]

set_option maxRecDepth 40000 in
/-- Witness for C5: `https://facebook.com/reel/123` with all three
strategies failing with a "Cannot parse data" error — the scratch directory
no longer exists and the guidance error is returned. -/
theorem extract_all_fail_cleanup_and_classify_witness :
    ["downloads", "abc"] ∉ applyActions [["downloads", "abc"], ["downloads"]]
        (extract_video_info ["downloads"] "abc"
          (fun _ => StratOutcome.err "ERROR: Cannot parse data") "https://facebook.com/reel/123").actions ∧
    (extract_video_info ["downloads"] "abc"
        (fun _ => StratOutcome.err "ERROR: Cannot parse data") "https://facebook.com/reel/123").result
      = ExtractResult.err guidanceMsg := by
  have h := extract_all_fail_cleanup_and_classify ["downloads"] "abc"
    "https://facebook.com/reel/123" (fun _ => StratOutcome.err "ERROR: Cannot parse data")
    (fun _ => "ERROR: Cannot parse data") (by decide) (fun i _ => rfl)
  refine ⟨h.1 _, ?_⟩
  rw [h.2.1, h.2.2.1 "ERROR: Cannot parse data" (by decide)]

/-! ### C3, C9 — the Download Orchestrator -/

/-- C3: a first invocation failing with a downloader error whose message
indicates the requested format is unavailable triggers exactly one retry
with the unconditional "best" selector, whose success becomes the returned
path and whose failure becomes the terminal error carrying the underlying
message; a first failure of any other kind is terminal immediately, with
one single invocation and the underlying message in the error. -/
theorem download_format_unavailable_retry (root : List String) (dirExists : Bool)
    (downloadId fid : String) (oracle : Nat → String → DlOutcome) (m : String)
    (h1 : oracle 0 (build_format_selector fid) = DlOutcome.downloadError m)
    (hm : strContains m "Requested format is not available" = true) :
    ((download_video root dirExists downloadId fid oracle).calls
        = [build_format_selector fid, "best"] ∧
      (∀ f, oracle 1 "best" = DlOutcome.ok f →
        (download_video root dirExists downloadId fid oracle).result = DownloadResult.ok f) ∧
      (∀ e2, (oracle 1 "best" = DlOutcome.downloadError e2 ∨
              oracle 1 "best" = DlOutcome.otherError e2) →
        (download_video root dirExists downloadId fid oracle).result
          = DownloadResult.err ("Could not download video in any available format: " ++ e2))) ∧
    (∀ (m2 : String) (oracle2 : Nat → String → DlOutcome),
        strContains m2 "Requested format is not available" = false →
        oracle2 0 (build_format_selector fid) = DlOutcome.downloadError m2 →
        (download_video root dirExists downloadId fid oracle2).calls
            = [build_format_selector fid] ∧
        (download_video root dirExists downloadId fid oracle2).result
            = DownloadResult.err ("Download failed: " ++ m2)) ∧
    (∀ (m2 : String) (oracle2 : Nat → String → DlOutcome),
        oracle2 0 (build_format_selector fid) = DlOutcome.otherError m2 →
        (download_video root dirExists downloadId fid oracle2).calls
            = [build_format_selector fid] ∧
        (download_video root dirExists downloadId fid oracle2).result
            = DownloadResult.err ("Unexpected error during download: " ++ m2)) := by
  refine ⟨⟨?_, ?_, ?_⟩, ?_, ?_⟩
  · rw [download_video]
    simp only [h1, hm, if_true]
    cases oracle 1 "best" <;> rfl
  · intro f hf
    rw [download_video]
    simp only [h1, hm, if_true, hf]
  · intro e2 he2
    rw [download_video]
    rcases he2 with he2 | he2 <;> simp only [h1, hm, if_true, he2]
  · intro m2 oracle2 hm2 h2
    rw [download_video]
    simp only [h2]
    rw [if_neg (by simp [hm2])]
    exact ⟨rfl, rfl⟩
  · intro m2 oracle2 h2
    rw [download_video]
    simp [h2]

/-- Concrete downloader oracle for the C3 witness: the first call reports
the requested format unavailable, the retry succeeds. -/
def dlRetryOracle : Nat → String → DlOutcome
  | 0, _ => DlOutcome.downloadError "ERROR: Requested format is not available"
  | _, _ => DlOutcome.ok "out.mp4"

set_option maxRecDepth 10000 in
/-- Witness for C3: format "999" unavailable on the first attempt, retry
with "best" succeeds — two calls, the retry's path returned. -/
theorem download_format_unavailable_retry_witness :
    (download_video ["downloads"] true "abc" "999" dlRetryOracle).calls
        = [build_format_selector "999", "best"] ∧
    (download_video ["downloads"] true "abc" "999" dlRetryOracle).result
        = DownloadResult.ok "out.mp4" := by
  have h := download_format_unavailable_retry ["downloads"] true "abc" "999" dlRetryOracle
    "ERROR: Requested format is not available" rfl (by decide)
  exact ⟨h.1.1, h.1.2.1 "out.mp4" rfl⟩

/-- C9: the download operation's format selector is "best" when the
requested identifier is empty or the sentinel "best", and
"{formatId}/best" otherwise; the first downloader invocation always uses
exactly this selector. -/
theorem download_selector_construction (root : List String) (dirExists : Bool)
    (downloadId fid : String) (oracle : Nat → String → DlOutcome) :
    build_format_selector fid
        = (if fid = "" ∨ fid = "best" then "best" else fid ++ "/best") ∧
    (download_video root dirExists downloadId fid oracle).calls.head?
        = some (build_format_selector fid) := by
  constructor
  · by_cases hb : fid = "best" <;> by_cases he : fid = "" <;>
      simp [build_format_selector, hb, he]
  · rw [download_video]
    cases h : oracle 0 (build_format_selector fid) with
    | ok f => rfl
    | downloadError msg =>
      dsimp only
      by_cases hc : strContains msg "Requested format is not available" = true
      · rw [if_pos hc]
        cases oracle 1 "best" <;> rfl
      · rw [if_neg hc]
        rfl
    | otherError msg => rfl

/-! ### C1 — cleanup safety -/

set_option maxRecDepth 10000 in
/-- Counterexample to C1 as stated: on adversarial inputs cleanup deletes
paths outside the downloads root through both removal sites. First, the
plain file removal (video.py line 256) is issued for the existing path
`/etc/secret`, which is no descendant of `/downloads` — `os.remove` carries
no root check at all. Second, the recursive removal (line 261) is issued
for `/downloads/sess/../../etc/target`: the unresolved parent chain that
`pathlib` reports contains `/downloads`, so the guard at line 260 passes,
yet the path `shutil.rmtree` actually removes resolves to `/etc/target`,
outside the root. -/
theorem cleanup_outside_root_counterexample :
    (Effect.removeFileAction ["etc", "secret"]
        ∈ cleanup_download ["downloads"] ["etc", "secret"] true false ∧
      isDescendantOf ["downloads"] ["etc", "secret"] = false) ∧
    (Effect.rmtreeAction ["downloads", "sess", "..", "..", "etc", "target"]
        ∈ cleanup_download ["downloads"]
            ["downloads", "sess", "..", "..", "etc", "target", "f"] false true ∧
      resolvePath ["downloads", "sess", "..", "..", "etc", "target"] = ["etc", "target"] ∧
      isDescendantOf ["downloads"] ["downloads", "sess", "..", "..", "etc", "target"] = false) := by
  decide

/-- C1 (amended): cleanup's deletions are not confined to descendants of
the configured downloads root; the only guard present is the literal
parent-chain check on the recursive removal. Precisely: the recursive
directory removal is issued exactly for the file path's literal parent,
when that parent exists and the downloads root is a strict prefix of its
unresolved components (pathlib's `in parent_dir.parents`, which `..`
components bypass); the plain file removal is issued for the given path
exactly when it exists, with no root check at all. -/
theorem cleanup_guard_characterization (root file_path : List String)
    (fileExists dirExists : Bool) (p : List String) :
    (Effect.rmtreeAction p ∈ cleanup_download root file_path fileExists dirExists ↔
      p = file_path.dropLast ∧ dirExists = true ∧ pathlib_in_parents root p = true) ∧
    (Effect.removeFileAction p ∈ cleanup_download root file_path fileExists dirExists ↔
      p = file_path ∧ fileExists = true) := by
  constructor
  · constructor
    · intro h
      rw [cleanup_download, List.mem_append] at h
      rcases h with h | h
      · cases fileExists <;> simp at h
      · by_cases hg : (dirExists && pathlib_in_parents root file_path.dropLast) = true
        · rw [if_pos hg] at h
          have hp : p = file_path.dropLast := by simpa using h
          subst hp
          exact ⟨rfl, (Bool.and_eq_true_iff.mp hg).1, (Bool.and_eq_true_iff.mp hg).2⟩
        · rw [if_neg hg] at h
          simp at h
    · rintro ⟨hp, hde, hg⟩
      subst hp
      rw [cleanup_download, List.mem_append]
      right
      rw [if_pos (by rw [hde, hg]; rfl)]
      simp
  · constructor
    · intro h
      rw [cleanup_download, List.mem_append] at h
      rcases h with h | h
      · cases hfe : fileExists
        · rw [hfe] at h
          simp at h
        · rw [hfe] at h
          have hp : p = file_path := by simpa using h
          exact ⟨hp, rfl⟩
      · by_cases hg : (dirExists && pathlib_in_parents root file_path.dropLast) = true
        · rw [if_pos hg] at h
          simp at h
        · rw [if_neg hg] at h
          simp at h
    · rintro ⟨hp, hfe⟩
      subst hp
      rw [cleanup_download, List.mem_append]
      left
      rw [if_pos hfe]
      simp

set_option maxRecDepth 10000 in
/-- Witness for the amended C1: a well-formed in-root file path for which
the guard holds and the parent-directory removal is indeed issued. -/
theorem cleanup_guard_characterization_witness :
    Effect.rmtreeAction ["downloads", "abc"]
      ∈ cleanup_download ["downloads"] ["downloads", "abc", "video.mp4"] true true :=
  (cleanup_guard_characterization ["downloads"] ["downloads", "abc", "video.mp4"] true true
    ["downloads", "abc"]).1.mpr ⟨by decide, rfl, by decide⟩
